import Mathlib

/-!
PCI and VFIO sysfs device classification.

A shallow embedding of `src/runtime/pkg/device/drivers/utils.go` (package `drivers`)
and the properties of it that the specification states.

Modelling conventions.

* A Go `string` or `[]byte` is a list of bytes (`GoString`).  A string literal of the
  source is written `str "..."`, its UTF-8 bytes.
* A Go `error` is `Option GoError`, `none` being `nil`.  A function with results
  `(T, error)` returns the pair `T × Option GoError`, both components as the source
  returns them.
* A function that can reach a run-time panic (an index or slice expression) returns an
  `Option`; `none` is the panic.
* The operating system is a `FileSystem`: the outcome of `os.Stat`, `os.ReadFile` and
  `filepath.EvalSymlinks` for every path.  Every theorem quantifies over it.
* Log output (`deviceLogger()`) is not part of the model.
* `config.SysBusPciDevicesPath` and `vfioAPSysfsDir` are declared outside this source
  file; they are parameters of the functions that read them.
-/

namespace Drivers

/-! ## Strings and errors -/

/-- A Go `string` (also a `[]byte`): a finite sequence of bytes. -/
abbrev GoString := List UInt8

/-- The bytes of a string literal: the UTF-8 encoding of its characters. -/
def str (s : String) : GoString := (s.data.map String.utf8EncodeChar).flatten

/-- The byte of an ASCII character literal such as `':'`. -/
def byte (c : Char) : UInt8 := c.toNat.toUInt8

/-- A non-nil Go `error`, identified by the text its `Error()` method returns. -/
structure GoError where
  Error : GoString
deriving DecidableEq

/-- The state of the host file system as the three library calls of the source see it.
`Stat` gives the size reported by `FileInfo.Size()`. -/
structure FileSystem where
  Stat : GoString → Except GoError Int
  ReadFile : GoString → Except GoError GoString
  EvalSymlinks : GoString → Except GoError GoString

/-! ## Library functions (`strings`, `path/filepath`, `fmt`) -/

/-- The scan of `strings.Split` for a one-byte separator: `cur` is the token collected
so far, the argument is the text still to scan.  Each separator closes a token; the end
of the text closes the last one. -/
def splitLoop (sep : UInt8) (cur : GoString) : GoString → List GoString
  | [] => [cur]
  | c :: cs => if c = sep then cur :: splitLoop sep [] cs else splitLoop sep (cur ++ [c]) cs

/-- `strings.Split(s, sep)` where `sep` is a one-byte string, which is what every call in
the source passes (`":"`, `"-"`, `"\n"`). -/
def Split (s : GoString) (sep : UInt8) : List GoString := splitLoop sep [] s

/-- `strings.HasPrefix(s, prefix)`: `len(s) >= len(prefix) && s[:len(prefix)] == prefix`. -/
def HasPrefix (s pre : GoString) : Bool :=
  decide (s.length ≥ pre.length) && (s.take pre.length == pre)

/-- `strings.Join(elems, sep)`. -/
def stringsJoin (elems : List GoString) (sep : GoString) : GoString := sep.intercalate elems

/-- `filepath.Base(path)` on Unix: `"."` for the empty path; otherwise trailing slashes are
stripped, the text after the last remaining slash is kept, and a path of slashes only
gives `"/"`. -/
def Base (path : GoString) : GoString :=
  if path = [] then str "." else
  let path := (path.reverse.dropWhile (fun b => b == byte '/')).reverse
  let path := (path.reverse.takeWhile (fun b => b != byte '/')).reverse
  if path = [] then str "/" else path

/-- One element of the path being cleaned by `filepath.Clean`; `out` is the stack of
elements written so far, last written first. -/
def cleanStep (rooted : Bool) (out : List GoString) (e : GoString) : List GoString :=
  if e = [] ∨ e = str "." then out
  else if e = str ".." then
    match out with
    | top :: rest =>
      if top ≠ str ".." then rest
      else if !rooted then e :: out
      else out
    | [] => if !rooted then [e] else []
  else e :: out

/-- `filepath.Clean(path)` on Unix: empty and `.` elements vanish, an inner `..` removes
the element before it, `..` at the start of a rooted path vanishes, and the empty result
is `"."`. -/
def Clean (path : GoString) : GoString :=
  if path = [] then str "." else
  let rooted := path.head? == some (byte '/')
  let out := (Split path (byte '/')).foldl (cleanStep rooted) []
  let body := stringsJoin out.reverse (str "/")
  let res := if rooted then str "/" ++ body else body
  if res = [] then str "." else res

/-- `filepath.Join(elem...)`: the elements from the first non-empty one on, joined by
slashes and cleaned; `""` when every element is empty. -/
def Join (elem : List GoString) : GoString :=
  match elem.dropWhile (fun e => e == []) with
  | [] => []
  | es => Clean (stringsJoin es (str "/"))

/-- The slice expression `data[:hi]`, which panics unless `0 ≤ hi ≤ len(data)`. -/
def sliceTo (data : GoString) (hi : Int) : Option GoString :=
  if 0 ≤ hi ∧ hi ≤ (data.length : Int) then some (data.take hi.toNat) else none

/-! ## Declarations of the source -/

/-- Modelled from the spec: the type `config.VFIODeviceType`, declared in package `config`,
is the closed set of four variants `{NormalPCI, MediatedAP, MediatedGeneric, Error}`; the
constructors carry the names the source uses for them. -/
inductive VFIODeviceType where
  | VFIODeviceErrorType
  | VFIOPCIDeviceNormalType
  | VFIOPCIDeviceMediatedType
  | VFIOAPDeviceMediatedType
deriving DecidableEq

open VFIODeviceType

/-- The constant `PCIDomain`. -/
def PCIDomain : GoString := str "0000"

/-- The constant `PCIConfigSpaceSize`. -/
def PCIConfigSpaceSize : Int := 256

/-- The value of the variable `bdf` of `isPCIeDevice` after its first statement
(source lines 51-53). -/
def isPCIeDevice_bdf (bdf : GoString) : GoString :=
  if (Split bdf (byte ':')).length = 2 then PCIDomain ++ str ":" ++ bdf else bdf

/-- The function `isPCIeDevice`; `SysBusPciDevicesPath` is `config.SysBusPciDevicesPath`. -/
def isPCIeDevice (SysBusPciDevicesPath : GoString) (fs : FileSystem) (bdf : GoString) : Bool :=
  let bdf := isPCIeDevice_bdf bdf
  let configPath := Join [SysBusPciDevicesPath, bdf, str "config"]
  match fs.Stat configPath with
  | .error _ => false
  | .ok size => decide (size > PCIConfigSpaceSize)

/-- The function `readPCIProperty`.  The index expression `[0]` panics on an empty slice. -/
def readPCIProperty (fs : FileSystem) (propertyPath : GoString) :
    Option (GoString × Option GoError) :=
  match fs.ReadFile propertyPath with
  | .error err =>
    some ([], some ⟨str "failed to read pci sysfs " ++ propertyPath ++ str ", error:" ++ err.Error⟩)
  | .ok buf =>
    match (Split buf (byte '\n'))[0]? with
    | none => none
    | some line => some (line, none)

/-- The value of the variable `bdf` of `getPCIDeviceProperty` after its first statement
(source lines 69-71). -/
def getPCIDeviceProperty_bdf (bdf : GoString) : GoString :=
  if (Split bdf (byte ':')).length = 2 then PCIDomain ++ str ":" ++ bdf else bdf

/-- The function `getPCIDeviceProperty`. -/
def getPCIDeviceProperty (SysBusPciDevicesPath : GoString) (fs : FileSystem)
    (bdf property : GoString) : Option GoString :=
  let bdf := getPCIDeviceProperty_bdf bdf
  let propertyPath := Join [SysBusPciDevicesPath, bdf, property]
  match readPCIProperty fs propertyPath with
  | none => none
  | some (_, some _) => some []
  | some (rlt, none) => some rlt

/-- The function `GetSysfsDev`. -/
def GetSysfsDev (fs : FileSystem) (sysfsDevStr : GoString) : Except GoError GoString :=
  fs.EvalSymlinks sysfsDevStr

/-- The function `GetVFIODeviceType`; `vfioAPSysfsDir` is the package constant of that name. -/
def GetVFIODeviceType (vfioAPSysfsDir : GoString) (fs : FileSystem)
    (deviceFilePath : GoString) : VFIODeviceType × Option GoError :=
  let deviceFileName := Base deviceFilePath
  let tokens := Split deviceFileName (byte ':')
  if tokens.length = 3 then (VFIOPCIDeviceNormalType, none) else
  let tokens := Split deviceFileName (byte '-')
  if tokens.length ≠ 5 then
    (VFIODeviceErrorType,
      some ⟨str "Incorrect tokens found while parsing VFIO details: " ++ deviceFileName⟩)
  else
  match GetSysfsDev fs deviceFilePath with
  | .error err => (VFIODeviceErrorType, some err)
  | .ok deviceSysfsDev =>
    if HasPrefix deviceSysfsDev vfioAPSysfsDir then (VFIOAPDeviceMediatedType, none)
    else (VFIOPCIDeviceMediatedType, none)

/-- The function `GetAPVFIODevices`.  The slice expression `data[:len(data)-1]` panics when
`data` is empty. -/
def GetAPVFIODevices (fs : FileSystem) (sysfsdev : GoString) :
    Option (List GoString × Option GoError) :=
  match fs.ReadFile (Join [sysfsdev, str "matrix"]) with
  | .error err => some ([], some err)
  | .ok data =>
    match sliceTo data ((data.length : Int) - 1) with
    | none => none
    | some s => some (Split s (byte '\n'), none)

/-! ## Sample file systems -/

/-- The error a library call reports for a path that does not exist. -/
def ENOENT : GoError := ⟨str "no such file or directory"⟩

/-- A file system in which every call fails. -/
def emptyFS : FileSystem where
  Stat := fun _ => .error ENOENT
  ReadFile := fun _ => .error ENOENT
  EvalSymlinks := fun _ => .error ENOENT

/-- A file system with one symbolic link, from `link` to `target`. -/
def linkFS (link target : GoString) : FileSystem where
  Stat := fun _ => .error ENOENT
  ReadFile := fun _ => .error ENOENT
  EvalSymlinks := fun p => if p = link then .ok target else .error ENOENT

/-- A file system with one regular file `path` of content `content`. -/
def fileFS (path content : GoString) : FileSystem where
  Stat := fun p => if p = path then .ok (content.length : Int) else .error ENOENT
  ReadFile := fun p => if p = path then .ok content else .error ENOENT
  EvalSymlinks := fun p => if p = path then .ok p else .error ENOENT

/-- A file system with one file `path` whose reported size is `size`. -/
def sizeFS (path : GoString) (size : Int) : FileSystem where
  Stat := fun p => if p = path then .ok size else .error ENOENT
  ReadFile := fun _ => .error ENOENT
  EvalSymlinks := fun p => if p = path then .ok p else .error ENOENT

/-- The AP sysfs root used in the examples, the value of `vfioAPSysfsDir` upstream. -/
def sampleAPDir : GoString := str "/sys/devices/vfio_ap"

/-- The mediated-device path used in the examples. -/
def sampleMdev : GoString :=
  str "/sys/kernel/iommu_groups/0/devices/83b8f4f2-509f-382f-3c1e-e6bfe0fa1001"

/-- The path of the configuration-space file used in the examples. -/
def sampleConfig : GoString := str "/sys/bus/pci/devices/0000:04:00.0/config"

/-- The PCI devices root used in the examples, the value of `config.SysBusPciDevicesPath`
upstream. -/
def samplePciRoot : GoString := str "/sys/bus/pci/devices"

/-- The text of a file whose lines are the elements of `L`, each followed by one newline. -/
def linesContent (L : List GoString) : GoString :=
  (L.map (fun x => x ++ [byte '\n'])).flatten

/-- The path of the property file used in the examples. -/
def sampleVendor : GoString := str "/sys/bus/pci/devices/0000:04:00.0/vendor"

/-- The path of the matrix file used in the examples. -/
def sampleMatrix : GoString := str "/sys/devices/vfio_ap/matrix/mdev0/matrix"

/-! ## Lemmas on the library functions -/

theorem splitLoop_append (sep : UInt8) (x : GoString) (hx : sep ∉ x) (cur rest : GoString) :
    splitLoop sep cur (x ++ rest) = splitLoop sep (cur ++ x) rest := by
  induction x generalizing cur with
  | nil => simp
  | cons a x ih =>
    have ha : a ≠ sep := fun h => hx (by simp [h])
    have hx2 : sep ∉ x := fun h => hx (List.mem_cons_of_mem _ h)
    simp [splitLoop, ha, ih hx2]

theorem splitLoop_head (sep : UInt8) (cur s : GoString) :
    (splitLoop sep cur s)[0]? = some (cur ++ s.takeWhile (fun b => b != sep)) := by
  induction s generalizing cur with
  | nil => simp [splitLoop]
  | cons a s ih =>
    by_cases ha : a = sep
    · simp [splitLoop, ha]
    · simp [splitLoop, ha, ih]

theorem Split_head (s : GoString) (sep : UInt8) :
    (Split s sep)[0]? = some (s.takeWhile (fun b => b != sep)) := by
  simpa [Split] using splitLoop_head sep [] s

theorem not_mem_takeWhile_ne (sep : UInt8) (s : GoString) :
    sep ∉ s.takeWhile (fun b => b != sep) := by
  intro h
  have := List.mem_takeWhile_imp h
  simp at this

theorem prefix_takeWhile_ne (sep : UInt8) (p s : GoString) (hp : p <+: s) (hsep : sep ∉ p) :
    p <+: s.takeWhile (fun b => b != sep) := by
  obtain ⟨r, rfl⟩ := hp
  have hall : ∀ a ∈ p, (fun b => b != sep) a = true := by
    intro a ha
    have : a ≠ sep := fun h => hsep (h ▸ ha)
    simpa using this
  rw [List.takeWhile_append_of_pos hall]
  exact List.prefix_append _ _

theorem splitLoop_linesContent (sep : UInt8) (L : List GoString) :
    ∀ (x cur : GoString), sep ∉ x → (∀ y ∈ L, sep ∉ y) →
      splitLoop sep cur ((x ++ [sep] ++ (L.map (fun y => y ++ [sep])).flatten).dropLast)
        = (cur ++ x) :: L := by
  induction L with
  | nil =>
    intro x cur hx _
    have h := splitLoop_append sep x hx cur []
    simpa [splitLoop] using h
  | cons y L ih =>
    intro x cur hx hL
    have hy : sep ∉ y := hL y (List.mem_cons_self _ _)
    have hL2 : ∀ z ∈ L, sep ∉ z := fun z hz => hL z (List.mem_cons_of_mem _ hz)
    have hne : (y ++ [sep] ++ (L.map (fun y => y ++ [sep])).flatten) ≠ [] := by simp
    have hstep : (x ++ [sep] ++ ((y :: L).map (fun y => y ++ [sep])).flatten).dropLast
        = x ++ (sep :: (y ++ [sep] ++ (L.map (fun y => y ++ [sep])).flatten).dropLast) := by
      have : x ++ [sep] ++ ((y :: L).map (fun y => y ++ [sep])).flatten
          = (x ++ [sep]) ++ (y ++ [sep] ++ (L.map (fun y => y ++ [sep])).flatten) := by simp
      rw [this, List.dropLast_append_of_ne_nil _ hne]
      simp
    rw [hstep, splitLoop_append sep x hx]
    simp only [splitLoop, if_true]
    rw [ih y [] hy hL2]
    simp

theorem sliceTo_length_sub_one (data : GoString) (h : data ≠ []) :
    sliceTo data ((data.length : Int) - 1) = some data.dropLast := by
  have hpos : 0 < data.length := List.length_pos.2 h
  have h1 : (0 : Int) ≤ (data.length : Int) - 1 ∧ (data.length : Int) - 1 ≤ (data.length : Int) := by
    omega
  have h2 : ((data.length : Int) - 1).toNat = data.length - 1 := by omega
  simp only [sliceTo, h1, and_self, if_true, h2, List.dropLast_eq_take]

theorem HasPrefix_iff (s pre : GoString) : HasPrefix s pre = true ↔ pre <+: s := by
  unfold HasPrefix
  rw [List.prefix_iff_eq_take]
  constructor
  · intro h
    simp only [Bool.and_eq_true, decide_eq_true_eq, beq_iff_eq] at h
    exact h.2.symm
  · intro h
    simp only [Bool.and_eq_true, decide_eq_true_eq, beq_iff_eq]
    refine ⟨?_, h.symm⟩
    have := congrArg List.length h
    rw [List.length_take] at this
    omega

theorem splitLoop_length (sep : UInt8) (cur s : GoString) :
    (splitLoop sep cur s).length = s.count sep + 1 := by
  induction s generalizing cur with
  | nil => simp [splitLoop]
  | cons a s ih =>
    by_cases ha : a = sep
    · subst ha
      simp [splitLoop, ih]
    · have hne : ¬ sep = a := fun h => ha h.symm
      simp [splitLoop, ha, ih, List.count_cons_of_ne hne]

theorem Split_length (s : GoString) (sep : UInt8) :
    (Split s sep).length = s.count sep + 1 :=
  splitLoop_length sep [] s

theorem splitLoop_ne_nil (sep : UInt8) (cur s : GoString) : splitLoop sep cur s ≠ [] := by
  intro h
  have := splitLoop_length sep cur s
  rw [h] at this
  simp at this

theorem splitLoop_not_mem (sep : UInt8) (s : GoString) :
    ∀ cur : GoString, sep ∉ cur → ∀ t ∈ splitLoop sep cur s, sep ∉ t := by
  induction s with
  | nil =>
    intro cur hcur t ht
    simp only [splitLoop, List.mem_singleton] at ht
    rw [ht]
    exact hcur
  | cons a s ih =>
    intro cur hcur t ht
    by_cases ha : a = sep
    · simp only [splitLoop, ha, if_true, List.mem_cons] at ht
      rcases ht with ht | ht
      · rw [ht]
        exact hcur
      · exact ih [] (by simp) t ht
    · simp only [splitLoop, ha, if_false] at ht
      refine ih (cur ++ [a]) ?_ t ht
      intro hmem
      rcases List.mem_append.1 hmem with h | h
      · exact hcur h
      · exact ha (List.mem_singleton.1 h).symm

theorem intercalate_cons_of_ne_nil (sep x : GoString) (rest : List GoString)
    (h : rest ≠ []) : sep.intercalate (x :: rest) = x ++ sep ++ sep.intercalate rest := by
  cases rest with
  | nil => exact absurd rfl h
  | cons y rest => simp [List.intercalate, List.intersperse]

theorem intercalate_splitLoop (sep : UInt8) (s : GoString) :
    ∀ cur : GoString, [sep].intercalate (splitLoop sep cur s) = cur ++ s := by
  induction s with
  | nil =>
    intro cur
    simp [splitLoop, List.intercalate]
  | cons a s ih =>
    intro cur
    by_cases ha : a = sep
    · simp only [splitLoop, ha, if_true]
      rw [intercalate_cons_of_ne_nil _ _ _ (splitLoop_ne_nil sep [] s), ih []]
      simp
    · simp only [splitLoop, ha, if_false]
      rw [ih (cur ++ [a])]
      simp

theorem GetAPVFIODevices_of_empty (fs : FileSystem) (sysfsdev : GoString)
    (hread : fs.ReadFile (Join [sysfsdev, str "matrix"]) = .ok []) :
    GetAPVFIODevices fs sysfsdev = none := by
  simp [GetAPVFIODevices, hread, sliceTo]

theorem Split_length_domain (bdf : GoString) :
    (Split (PCIDomain ++ str ":" ++ bdf) (byte ':')).length
      = (Split bdf (byte ':')).length + 1 := by
  have hcount : (PCIDomain ++ str ":").count (byte ':') = 1 := by decide
  rw [Split_length, Split_length, List.count_append, hcount]
  omega

theorem isPCIeDevice_bdf_eq (bdf : GoString) :
    isPCIeDevice_bdf bdf = getPCIDeviceProperty_bdf bdf := rfl

theorem isPCIeDevice_bdf_segments (bdf : GoString) :
    (Split (isPCIeDevice_bdf bdf) (byte ':')).length
      = if (Split bdf (byte ':')).length = 2 then 3 else (Split bdf (byte ':')).length := by
  unfold isPCIeDevice_bdf
  by_cases h : (Split bdf (byte ':')).length = 2
  · rw [if_pos h, if_pos h, Split_length_domain, h]
  · rw [if_neg h, if_neg h]

theorem isPCIeDevice_bdf_of_ne (x : GoString) (h : (Split x (byte ':')).length ≠ 2) :
    isPCIeDevice_bdf x = x := by
  unfold isPCIeDevice_bdf
  rw [if_neg h]

theorem isPCIeDevice_bdf_idem (bdf : GoString) :
    isPCIeDevice_bdf (isPCIeDevice_bdf bdf) = isPCIeDevice_bdf bdf := by
  have hseg := isPCIeDevice_bdf_segments bdf
  have hne : (Split (isPCIeDevice_bdf bdf) (byte ':')).length ≠ 2 := by
    by_cases h : (Split bdf (byte ':')).length = 2
    · rw [if_pos h] at hseg
      omega
    · rw [if_neg h] at hseg
      omega
  exact isPCIeDevice_bdf_of_ne _ hne

theorem Base_dir_name (d n : GoString) (k : Nat) (hne : n ≠ [])
    (hslash : byte '/' ∉ n) :
    Base (d ++ str "/" ++ n ++ List.replicate k (byte '/')) = n := by
  have hsep : str "/" = [byte '/'] := by decide
  have hpath : d ++ str "/" ++ n ++ List.replicate k (byte '/') ≠ [] := by
    intro h
    have hlen := congrArg List.length h
    have hn : 0 < n.length := List.length_pos.2 hne
    simp only [List.length_append, List.length_nil] at hlen
    omega
  have hrev : (d ++ str "/" ++ n ++ List.replicate k (byte '/')).reverse
      = List.replicate k (byte '/') ++ (n.reverse ++ byte '/' :: d.reverse) := by
    simp [hsep]
  have hrep : ∀ a ∈ List.replicate k (byte '/'), (fun b => b == byte '/') a = true := by
    intro a ha
    simp [(List.mem_replicate.1 ha).2]
  have hnrev : n.reverse ≠ [] := by simpa using hne
  have hdrop : (n.reverse ++ byte '/' :: d.reverse).dropWhile (fun b => b == byte '/')
      = n.reverse ++ byte '/' :: d.reverse := by
    cases hr : n.reverse with
    | nil => exact absurd hr hnrev
    | cons a r =>
      have ha : a ∈ n := by
        have : a ∈ n.reverse := by rw [hr]; exact List.mem_cons_self _ _
        exact List.mem_reverse.1 this
      have hane : a ≠ byte '/' := fun h => hslash (h ▸ ha)
      simp [hane]
  have hall : ∀ a ∈ n.reverse, (fun b => b != byte '/') a = true := by
    intro a ha
    have hane : a ≠ byte '/' := fun h => hslash (h ▸ List.mem_reverse.1 ha)
    simpa using hane
  have htake : (n.reverse ++ byte '/' :: d.reverse).takeWhile (fun b => b != byte '/')
      = n.reverse := by
    rw [List.takeWhile_append_of_pos hall]
    simp
  unfold Base
  rw [if_neg hpath]
  simp only [hrev, List.dropWhile_append_of_pos hrep, hdrop, List.reverse_reverse, htake]
  rw [if_neg hne]

theorem GetVFIODeviceType_unfold (vfioAPSysfsDir : GoString) (fs : FileSystem)
    (deviceFilePath : GoString) :
    GetVFIODeviceType vfioAPSysfsDir fs deviceFilePath =
      if (Split (Base deviceFilePath) (byte ':')).length = 3 then
        (VFIOPCIDeviceNormalType, none)
      else if (Split (Base deviceFilePath) (byte '-')).length ≠ 5 then
        (VFIODeviceErrorType,
          some ⟨str "Incorrect tokens found while parsing VFIO details: "
            ++ Base deviceFilePath⟩)
      else
        match fs.EvalSymlinks deviceFilePath with
        | .error err => (VFIODeviceErrorType, some err)
        | .ok deviceSysfsDev =>
          if HasPrefix deviceSysfsDev vfioAPSysfsDir then (VFIOAPDeviceMediatedType, none)
          else (VFIOPCIDeviceMediatedType, none) := rfl

theorem GetVFIODeviceType_fst_normal_iff (vfioAPSysfsDir : GoString) (fs : FileSystem)
    (deviceFilePath : GoString) :
    (GetVFIODeviceType vfioAPSysfsDir fs deviceFilePath).1 = VFIOPCIDeviceNormalType ↔
      (Split (Base deviceFilePath) (byte ':')).length = 3 := by
  rw [GetVFIODeviceType_unfold]
  by_cases hcolon : (Split (Base deviceFilePath) (byte ':')).length = 3
  · simp [hcolon]
  · by_cases hhyphen : (Split (Base deviceFilePath) (byte '-')).length = 5
    · cases hlink : fs.EvalSymlinks deviceFilePath with
      | error e => simp [hcolon, hhyphen]
      | ok t =>
        by_cases hp : HasPrefix t vfioAPSysfsDir = true
        · simp [hcolon, hhyphen, hp]
        · simp [hcolon, hhyphen, hp]
    · simp [hcolon, hhyphen]

theorem GetVFIODeviceType_shape_error_iff (vfioAPSysfsDir deviceFilePath : GoString) :
    (∀ fs : FileSystem, GetVFIODeviceType vfioAPSysfsDir fs deviceFilePath
        = (VFIODeviceErrorType,
            some ⟨str "Incorrect tokens found while parsing VFIO details: "
              ++ Base deviceFilePath⟩)) ↔
      ((Split (Base deviceFilePath) (byte ':')).length ≠ 3
        ∧ (Split (Base deviceFilePath) (byte '-')).length ≠ 5) := by
  constructor
  · intro h
    have hfs := h (linkFS deviceFilePath [])
    rw [GetVFIODeviceType_unfold] at hfs
    by_cases hcolon : (Split (Base deviceFilePath) (byte ':')).length = 3
    · simp [hcolon] at hfs
    · by_cases hhyphen : (Split (Base deviceFilePath) (byte '-')).length = 5
      · by_cases hp : HasPrefix [] vfioAPSysfsDir = true
        · simp [hcolon, hhyphen, linkFS, hp] at hfs
        · simp [hcolon, hhyphen, linkFS, hp] at hfs
      · exact ⟨hcolon, hhyphen⟩
  · rintro ⟨hcolon, hhyphen⟩ fs
    rw [GetVFIODeviceType_unfold]
    simp [hcolon, hhyphen]

/-! ## `GetVFIODeviceType` -/

/-- C1. When the final component of the device path splits on `:` into exactly three
tokens, `GetVFIODeviceType` returns `VFIOPCIDeviceNormalType` and a nil error, for every
file system (so whatever symlink resolution would give) and every AP root, with no
condition on the `-` tokens of the name. -/
theorem GetVFIODeviceType_normal (vfioAPSysfsDir : GoString) (fs : FileSystem)
    (deviceFilePath : GoString)
    (h : (Split (Base deviceFilePath) (byte ':')).length = 3) :
    GetVFIODeviceType vfioAPSysfsDir fs deviceFilePath = (VFIOPCIDeviceNormalType, none) := by
  simp [GetVFIODeviceType, h]

theorem GetVFIODeviceType_normal_witness :
    GetVFIODeviceType sampleAPDir emptyFS (str "/sys/bus/pci/devices/0000:04:00.0")
        = (VFIOPCIDeviceNormalType, none)
      ∧ GetVFIODeviceType sampleAPDir
          (linkFS (str "0000:04:00.0") (str "/sys/devices/vfio_ap/matrix")) (str "0000:04:00.0")
        = (VFIOPCIDeviceNormalType, none) :=
  ⟨GetVFIODeviceType_normal _ _ _ (by decide), GetVFIODeviceType_normal _ _ _ (by decide)⟩

/-- C2. When the final component does not split on `:` into three tokens, splits on `-`
into exactly five, and symlink resolution of the device path succeeds with target `t`,
the result is `VFIOAPDeviceMediatedType` with a nil error if the AP root is a prefix of
`t`, and `VFIOPCIDeviceMediatedType` with a nil error otherwise. -/
theorem GetVFIODeviceType_mediated (vfioAPSysfsDir : GoString) (fs : FileSystem)
    (deviceFilePath t : GoString)
    (hcolon : (Split (Base deviceFilePath) (byte ':')).length ≠ 3)
    (hhyphen : (Split (Base deviceFilePath) (byte '-')).length = 5)
    (hlink : fs.EvalSymlinks deviceFilePath = .ok t) :
    (vfioAPSysfsDir <+: t →
        GetVFIODeviceType vfioAPSysfsDir fs deviceFilePath = (VFIOAPDeviceMediatedType, none))
      ∧ (¬ vfioAPSysfsDir <+: t →
        GetVFIODeviceType vfioAPSysfsDir fs deviceFilePath = (VFIOPCIDeviceMediatedType, none)) := by
  constructor
  · intro hp
    have hp' := (HasPrefix_iff t vfioAPSysfsDir).2 hp
    simp [GetVFIODeviceType, GetSysfsDev, hcolon, hhyphen, hlink, hp']
  · intro hp
    have hp' : HasPrefix t vfioAPSysfsDir = false := by
      cases h : HasPrefix t vfioAPSysfsDir
      · rfl
      · exact absurd ((HasPrefix_iff t vfioAPSysfsDir).1 h) hp
    simp [GetVFIODeviceType, GetSysfsDev, hcolon, hhyphen, hlink, hp']

theorem GetVFIODeviceType_mediated_witness :
    GetVFIODeviceType sampleAPDir
        (linkFS sampleMdev (str "/sys/devices/vfio_ap/matrix/83b8f4f2-509f-382f-3c1e-e6bfe0fa1001"))
        sampleMdev = (VFIOAPDeviceMediatedType, none)
      ∧ GetVFIODeviceType sampleAPDir
        (linkFS sampleMdev (str "/sys/devices/pci0000:00/0000:00:02.0/83b8f4f2-509f-382f-3c1e-e6bfe0fa1001"))
        sampleMdev = (VFIOPCIDeviceMediatedType, none) :=
  ⟨(GetVFIODeviceType_mediated sampleAPDir _ sampleMdev
      (str "/sys/devices/vfio_ap/matrix/83b8f4f2-509f-382f-3c1e-e6bfe0fa1001")
      (by decide) (by decide) rfl).1 (by decide),
   (GetVFIODeviceType_mediated sampleAPDir _ sampleMdev
      (str "/sys/devices/pci0000:00/0000:00:02.0/83b8f4f2-509f-382f-3c1e-e6bfe0fa1001")
      (by decide) (by decide) rfl).2 (by decide)⟩

/-- C3. When the final component splits on `:` into a number of tokens other than three
and on `-` into a number of tokens other than five, the result is `VFIODeviceErrorType`
with a non-nil error whose message is `"Incorrect tokens found while parsing VFIO details: "`
followed by the final component; the result is the same for every file system. -/
theorem GetVFIODeviceType_shape_mismatch (vfioAPSysfsDir : GoString) (fs : FileSystem)
    (deviceFilePath : GoString)
    (hcolon : (Split (Base deviceFilePath) (byte ':')).length ≠ 3)
    (hhyphen : (Split (Base deviceFilePath) (byte '-')).length ≠ 5) :
    GetVFIODeviceType vfioAPSysfsDir fs deviceFilePath
        = (VFIODeviceErrorType,
            some ⟨str "Incorrect tokens found while parsing VFIO details: "
              ++ Base deviceFilePath⟩)
      ∧ ∀ fs2 : FileSystem, GetVFIODeviceType vfioAPSysfsDir fs2 deviceFilePath
          = GetVFIODeviceType vfioAPSysfsDir fs deviceFilePath := by
  simp [GetVFIODeviceType, hcolon, hhyphen]

theorem GetVFIODeviceType_shape_mismatch_witness :
    GetVFIODeviceType sampleAPDir
        (linkFS (str "/dev/vfio/not-a-valid-name") (str "/sys/devices/vfio_ap/matrix"))
        (str "/dev/vfio/not-a-valid-name")
      = (VFIODeviceErrorType,
          some ⟨str "Incorrect tokens found while parsing VFIO details: "
            ++ Base (str "/dev/vfio/not-a-valid-name")⟩)
      ∧ Base (str "/dev/vfio/not-a-valid-name") = str "not-a-valid-name"
      ∧ (Split (str "not-a-valid-name") (byte '-')).length = 4 :=
  ⟨(GetVFIODeviceType_shape_mismatch sampleAPDir _ (str "/dev/vfio/not-a-valid-name")
    (by decide) (by decide)).1, by decide, by decide⟩

/-- C4. When the final component is not a three-colon-token name but is a
five-hyphen-token name and symlink resolution of the device path fails with error `e`,
the result is `VFIODeviceErrorType` together with exactly `e`. -/
theorem GetVFIODeviceType_symlink_failure (vfioAPSysfsDir : GoString) (fs : FileSystem)
    (deviceFilePath : GoString) (e : GoError)
    (hcolon : (Split (Base deviceFilePath) (byte ':')).length ≠ 3)
    (hhyphen : (Split (Base deviceFilePath) (byte '-')).length = 5)
    (hlink : fs.EvalSymlinks deviceFilePath = .error e) :
    GetVFIODeviceType vfioAPSysfsDir fs deviceFilePath = (VFIODeviceErrorType, some e) := by
  simp [GetVFIODeviceType, GetSysfsDev, hcolon, hhyphen, hlink]

theorem GetVFIODeviceType_symlink_failure_witness :
    GetVFIODeviceType sampleAPDir emptyFS sampleMdev = (VFIODeviceErrorType, some ENOENT) :=
  GetVFIODeviceType_symlink_failure sampleAPDir emptyFS sampleMdev ENOENT
    (by decide) (by decide) rfl

/-- C5. For every device path and file system, `GetVFIODeviceType` returns a non-nil error
exactly when the final component is not a three-colon-token name and either is not a
five-hyphen-token name or symlink resolution fails; and the returned type is
`VFIODeviceErrorType` exactly when the returned error is non-nil. -/
theorem GetVFIODeviceType_failure_iff (vfioAPSysfsDir : GoString) (fs : FileSystem)
    (deviceFilePath : GoString) :
    ((GetVFIODeviceType vfioAPSysfsDir fs deviceFilePath).2 ≠ none ↔
        (Split (Base deviceFilePath) (byte ':')).length ≠ 3 ∧
          ((Split (Base deviceFilePath) (byte '-')).length ≠ 5 ∨
            ∃ e, fs.EvalSymlinks deviceFilePath = .error e))
      ∧ ((GetVFIODeviceType vfioAPSysfsDir fs deviceFilePath).1 = VFIODeviceErrorType ↔
        (GetVFIODeviceType vfioAPSysfsDir fs deviceFilePath).2 ≠ none) := by
  unfold GetVFIODeviceType GetSysfsDev
  by_cases hcolon : (Split (Base deviceFilePath) (byte ':')).length = 3
  · simp [hcolon]
  · by_cases hhyphen : (Split (Base deviceFilePath) (byte '-')).length = 5
    · cases hlink : fs.EvalSymlinks deviceFilePath with
      | error e => simp [hcolon, hhyphen]
      | ok t =>
        by_cases hp : HasPrefix t vfioAPSysfsDir = true
        · simp [hcolon, hhyphen, hp]
        · simp [hcolon, hhyphen, hp]
    · simp [hcolon, hhyphen]

/-! ## BDF normalisation and `isPCIeDevice` -/

/-- C6. The normalisation step at the head of `isPCIeDevice` and of `getPCIDeviceProperty`:
when `bdf` splits on `:` into exactly two segments the normalised value is `"0000:"`
followed by `bdf`; for every other segment count it is `bdf` itself. -/
theorem bdf_normalisation (bdf : GoString) :
    ((Split bdf (byte ':')).length = 2 →
        isPCIeDevice_bdf bdf = str "0000:" ++ bdf
          ∧ getPCIDeviceProperty_bdf bdf = str "0000:" ++ bdf)
      ∧ ((Split bdf (byte ':')).length ≠ 2 →
        isPCIeDevice_bdf bdf = bdf ∧ getPCIDeviceProperty_bdf bdf = bdf) := by
  have hdom : PCIDomain ++ str ":" = str "0000:" := by decide
  constructor
  · intro h
    simp only [isPCIeDevice_bdf, getPCIDeviceProperty_bdf, h, if_true, hdom, and_self]
  · intro h
    simp only [isPCIeDevice_bdf, getPCIDeviceProperty_bdf, h, if_false, and_self]

theorem bdf_normalisation_witness :
    (isPCIeDevice_bdf (str "04:00.0") = str "0000:" ++ str "04:00.0"
        ∧ getPCIDeviceProperty_bdf (str "04:00.0") = str "0000:" ++ str "04:00.0")
      ∧ (isPCIeDevice_bdf (str "0000:04:00.0") = str "0000:04:00.0"
        ∧ getPCIDeviceProperty_bdf (str "0000:04:00.0") = str "0000:04:00.0")
      ∧ (isPCIeDevice_bdf (str "0000") = str "0000"
        ∧ getPCIDeviceProperty_bdf (str "0000") = str "0000")
      ∧ (isPCIeDevice_bdf (str "1:0000:04:00.0") = str "1:0000:04:00.0"
        ∧ getPCIDeviceProperty_bdf (str "1:0000:04:00.0") = str "1:0000:04:00.0")
      ∧ str "0000:" ++ str "04:00.0" = str "0000:04:00.0" :=
  ⟨(bdf_normalisation (str "04:00.0")).1 (by decide),
   (bdf_normalisation (str "0000:04:00.0")).2 (by decide),
   (bdf_normalisation (str "0000")).2 (by decide),
   (bdf_normalisation (str "1:0000:04:00.0")).2 (by decide),
   by decide⟩

/-- C7. For every `bdf` and file system, `isPCIeDevice` is true exactly when `os.Stat` of
the path joined from the PCI devices root, the normalised `bdf` and `config` succeeds and
reports a size strictly greater than 256.  In particular a failing stat gives false, size
256 gives false, sizes 257 and 4096 give true.  The result is a plain boolean: there is
no error component and no panic. -/
theorem isPCIeDevice_iff (SysBusPciDevicesPath : GoString) (fs : FileSystem)
    (bdf : GoString) :
    (isPCIeDevice SysBusPciDevicesPath fs bdf = true ↔
        ∃ size : Int,
          fs.Stat (Join [SysBusPciDevicesPath, isPCIeDevice_bdf bdf, str "config"]) = .ok size
            ∧ size > 256)
      ∧ ((∃ e, fs.Stat (Join [SysBusPciDevicesPath, isPCIeDevice_bdf bdf, str "config"])
            = .error e) → isPCIeDevice SysBusPciDevicesPath fs bdf = false)
      ∧ (fs.Stat (Join [SysBusPciDevicesPath, isPCIeDevice_bdf bdf, str "config"]) = .ok 256 →
          isPCIeDevice SysBusPciDevicesPath fs bdf = false)
      ∧ (fs.Stat (Join [SysBusPciDevicesPath, isPCIeDevice_bdf bdf, str "config"]) = .ok 257 →
          isPCIeDevice SysBusPciDevicesPath fs bdf = true)
      ∧ (fs.Stat (Join [SysBusPciDevicesPath, isPCIeDevice_bdf bdf, str "config"]) = .ok 4096 →
          isPCIeDevice SysBusPciDevicesPath fs bdf = true) := by
  have hdef : isPCIeDevice SysBusPciDevicesPath fs bdf =
      match fs.Stat (Join [SysBusPciDevicesPath, isPCIeDevice_bdf bdf, str "config"]) with
      | .error _ => false
      | .ok size => decide (size > PCIConfigSpaceSize) := rfl
  rw [hdef]
  generalize fs.Stat (Join [SysBusPciDevicesPath, isPCIeDevice_bdf bdf, str "config"]) = r
  cases r with
  | error e => simp
  | ok size =>
    refine ⟨?_, ?_, ?_, ?_, ?_⟩
    · simp [PCIConfigSpaceSize]
    · rintro ⟨e, he⟩
      cases he
    · intro h
      cases h
      decide
    · intro h
      cases h
      decide
    · intro h
      cases h
      decide

theorem isPCIeDevice_iff_witness :
    Join [samplePciRoot, isPCIeDevice_bdf (str "04:00.0"), str "config"] = sampleConfig
      ∧ isPCIeDevice samplePciRoot emptyFS (str "04:00.0") = false
      ∧ isPCIeDevice samplePciRoot (sizeFS sampleConfig 256) (str "04:00.0") = false
      ∧ isPCIeDevice samplePciRoot (sizeFS sampleConfig 257) (str "04:00.0") = true
      ∧ isPCIeDevice samplePciRoot (sizeFS sampleConfig 4096) (str "04:00.0") = true :=
  ⟨by decide,
   (isPCIeDevice_iff samplePciRoot emptyFS (str "04:00.0")).2.1 ⟨ENOENT, rfl⟩,
   (isPCIeDevice_iff samplePciRoot (sizeFS sampleConfig 256) (str "04:00.0")).2.2.1 rfl,
   (isPCIeDevice_iff samplePciRoot (sizeFS sampleConfig 257) (str "04:00.0")).2.2.2.1 rfl,
   (isPCIeDevice_iff samplePciRoot (sizeFS sampleConfig 4096) (str "04:00.0")).2.2.2.2 rfl⟩

/-! ## `readPCIProperty` and `getPCIDeviceProperty` -/

/-- C8. When the read of the property file succeeds with content `c` (empty content and
content without a newline included), `readPCIProperty` returns, with a nil error and
without an index panic, the part of `c` before its first newline: a prefix of `c` that
holds no newline, that every newline-free prefix of `c` is a prefix of, and that is all
of `c` when `c` holds no newline. -/
theorem readPCIProperty_first_line (fs : FileSystem) (propertyPath c : GoString)
    (hread : fs.ReadFile propertyPath = .ok c) :
    readPCIProperty fs propertyPath = some (c.takeWhile (fun b => b != byte '\n'), none)
      ∧ c.takeWhile (fun b => b != byte '\n') <+: c
      ∧ byte '\n' ∉ c.takeWhile (fun b => b != byte '\n')
      ∧ (∀ p : GoString, p <+: c → byte '\n' ∉ p →
          p <+: c.takeWhile (fun b => b != byte '\n'))
      ∧ (∀ pre rest : GoString, byte '\n' ∉ pre → c = pre ++ byte '\n' :: rest →
          c.takeWhile (fun b => b != byte '\n') = pre)
      ∧ (byte '\n' ∉ c → c.takeWhile (fun b => b != byte '\n') = c) := by
  refine ⟨?_, List.takeWhile_prefix _, not_mem_takeWhile_ne _ _,
    fun p hp hsep => prefix_takeWhile_ne _ p c hp hsep, ?_, ?_⟩
  · simp only [readPCIProperty, hread, Split_head]
  · intro pre rest hpre hc
    have hall : ∀ a ∈ pre, (fun b => b != byte '\n') a = true := by
      intro a ha
      have : a ≠ byte '\n' := fun h => hpre (h ▸ ha)
      simpa using this
    rw [hc, List.takeWhile_append_of_pos hall]
    simp
  · intro hc
    rw [List.takeWhile_eq_self_iff]
    intro a ha
    have : a ≠ byte '\n' := fun h => hc (h ▸ ha)
    simpa using this

theorem readPCIProperty_first_line_witness :
    readPCIProperty (fileFS sampleVendor (str "8086\nsome-trailing-garbage\n")) sampleVendor
        = some ((str "8086\nsome-trailing-garbage\n").takeWhile (fun b => b != byte '\n'), none)
      ∧ (str "8086\nsome-trailing-garbage\n").takeWhile (fun b => b != byte '\n') = str "8086"
      ∧ readPCIProperty (fileFS sampleVendor []) sampleVendor = some ([], none) :=
  ⟨(readPCIProperty_first_line (fileFS sampleVendor (str "8086\nsome-trailing-garbage\n"))
      sampleVendor (str "8086\nsome-trailing-garbage\n") rfl).1,
   by decide,
   (readPCIProperty_first_line (fileFS sampleVendor []) sampleVendor [] rfl).1⟩

/-- C9. `getPCIDeviceProperty` reads the file at the path joined from the PCI devices
root, the normalised `bdf` and the property name.  When that read fails, the result is
the empty string, `readPCIProperty` itself returning the empty value with an error whose
message contains the property path; when it succeeds the result is the first line of the
file.  In every case the function returns a plain string: no error and no panic. -/
theorem getPCIDeviceProperty_soft_failure (SysBusPciDevicesPath : GoString) (fs : FileSystem)
    (bdf property : GoString) :
    (∀ e : GoError,
        fs.ReadFile (Join [SysBusPciDevicesPath, getPCIDeviceProperty_bdf bdf, property])
          = .error e →
        getPCIDeviceProperty SysBusPciDevicesPath fs bdf property = some []
          ∧ ∃ err : GoError,
            readPCIProperty fs (Join [SysBusPciDevicesPath, getPCIDeviceProperty_bdf bdf, property])
              = some ([], some err)
            ∧ Join [SysBusPciDevicesPath, getPCIDeviceProperty_bdf bdf, property] <:+: err.Error
            ∧ err.Error = str "failed to read pci sysfs "
                ++ Join [SysBusPciDevicesPath, getPCIDeviceProperty_bdf bdf, property]
                ++ str ", error:" ++ e.Error)
      ∧ (∀ c : GoString,
        fs.ReadFile (Join [SysBusPciDevicesPath, getPCIDeviceProperty_bdf bdf, property])
          = .ok c →
        getPCIDeviceProperty SysBusPciDevicesPath fs bdf property
          = some (c.takeWhile (fun b => b != byte '\n')))
      ∧ ∃ v : GoString, getPCIDeviceProperty SysBusPciDevicesPath fs bdf property = some v := by
  have hdef : getPCIDeviceProperty SysBusPciDevicesPath fs bdf property =
      match readPCIProperty fs
        (Join [SysBusPciDevicesPath, getPCIDeviceProperty_bdf bdf, property]) with
      | none => none
      | some (_, some _) => some []
      | some (rlt, none) => some rlt := rfl
  have herr : ∀ e : GoError,
      fs.ReadFile (Join [SysBusPciDevicesPath, getPCIDeviceProperty_bdf bdf, property])
        = .error e →
      readPCIProperty fs (Join [SysBusPciDevicesPath, getPCIDeviceProperty_bdf bdf, property])
        = some ([], some ⟨str "failed to read pci sysfs "
            ++ Join [SysBusPciDevicesPath, getPCIDeviceProperty_bdf bdf, property]
            ++ str ", error:" ++ e.Error⟩) := by
    intro e he
    simp only [readPCIProperty, he]
  have hok : ∀ c : GoString,
      fs.ReadFile (Join [SysBusPciDevicesPath, getPCIDeviceProperty_bdf bdf, property])
        = .ok c →
      readPCIProperty fs (Join [SysBusPciDevicesPath, getPCIDeviceProperty_bdf bdf, property])
        = some (c.takeWhile (fun b => b != byte '\n'), none) :=
    fun c hc => (readPCIProperty_first_line fs _ c hc).1
  refine ⟨?_, ?_, ?_⟩
  · intro e he
    refine ⟨by rw [hdef, herr e he], _, herr e he, ?_, rfl⟩
    exact ⟨str "failed to read pci sysfs ", str ", error:" ++ e.Error, by simp⟩
  · intro c hc
    rw [hdef, hok c hc]
  · cases hres : fs.ReadFile (Join [SysBusPciDevicesPath, getPCIDeviceProperty_bdf bdf, property]) with
    | error e => exact ⟨_, by rw [hdef, herr e hres]⟩
    | ok c => exact ⟨_, by rw [hdef, hok c hres]⟩

theorem getPCIDeviceProperty_soft_failure_witness :
    Join [samplePciRoot, getPCIDeviceProperty_bdf (str "04:00.0"), str "vendor"] = sampleVendor
      ∧ getPCIDeviceProperty samplePciRoot emptyFS (str "04:00.0") (str "vendor") = some []
      ∧ getPCIDeviceProperty samplePciRoot
          (fileFS sampleVendor (str "8086\nsome-trailing-garbage\n")) (str "04:00.0") (str "vendor")
        = some ((str "8086\nsome-trailing-garbage\n").takeWhile (fun b => b != byte '\n')) :=
  ⟨by decide,
   ((getPCIDeviceProperty_soft_failure samplePciRoot emptyFS (str "04:00.0") (str "vendor")).1
      ENOENT rfl).1,
   (getPCIDeviceProperty_soft_failure samplePciRoot
      (fileFS sampleVendor (str "8086\nsome-trailing-garbage\n")) (str "04:00.0")
      (str "vendor")).2.1 _ rfl⟩

/-! ## `GetAPVFIODevices` -/

/-- C10. For every non-empty list `L` of strings none of which holds a newline, when the
matrix file under `sysfsdev` reads as the elements of `L`, each followed by one newline,
`GetAPVFIODevices` returns exactly `L`, in order, with a nil error and without a panic. -/
theorem GetAPVFIODevices_round_trip (fs : FileSystem) (sysfsdev : GoString)
    (L : List GoString) (hne : L ≠ []) (hnl : ∀ x ∈ L, byte '\n' ∉ x)
    (hread : fs.ReadFile (Join [sysfsdev, str "matrix"]) = .ok (linesContent L)) :
    GetAPVFIODevices fs sysfsdev = some (L, none) := by
  cases L with
  | nil => exact absurd rfl hne
  | cons x L =>
    have hx : byte '\n' ∉ x := hnl x (List.mem_cons_self _ _)
    have hL : ∀ y ∈ L, byte '\n' ∉ y := fun y hy => hnl y (List.mem_cons_of_mem _ hy)
    have hshape : linesContent (x :: L)
        = x ++ [byte '\n'] ++ (L.map (fun y => y ++ [byte '\n'])).flatten := by
      simp [linesContent]
    have hdata : linesContent (x :: L) ≠ [] := by
      rw [hshape]
      simp
    have hsplit := splitLoop_linesContent (byte '\n') L x [] hx hL
    simp only [GetAPVFIODevices, hread]
    rw [sliceTo_length_sub_one _ hdata]
    simp only [Split]
    rw [hshape, hsplit]
    simp

theorem GetAPVFIODevices_round_trip_witness :
    linesContent [str "05.0010", str "05.0011"] = str "05.0010\n05.0011\n"
      ∧ Join [str "/sys/devices/vfio_ap/matrix/mdev0", str "matrix"] = sampleMatrix
      ∧ GetAPVFIODevices (fileFS sampleMatrix (linesContent [str "05.0010", str "05.0011"]))
          (str "/sys/devices/vfio_ap/matrix/mdev0")
        = some ([str "05.0010", str "05.0011"], none) :=
  ⟨by decide, by decide,
   GetAPVFIODevices_round_trip _ (str "/sys/devices/vfio_ap/matrix/mdev0")
     [str "05.0010", str "05.0011"] (by simp) (by decide) rfl⟩

/-- C11. Evaluation of `GetAPVFIODevices` on a matrix file of zero length: the read
succeeds with empty content, the slice expression `data[:len(data)-1]` has upper bound
`-1`, and the call ends in a run-time panic instead of returning an empty sequence. -/
theorem GetAPVFIODevices_empty_matrix_panics :
    (fileFS sampleMatrix []).ReadFile (Join [str "/sys/devices/vfio_ap/matrix/mdev0", str "matrix"])
        = .ok []
      ∧ sliceTo [] (((([] : GoString).length : Nat) : Int) - 1) = none
      ∧ GetAPVFIODevices (fileFS sampleMatrix []) (str "/sys/devices/vfio_ap/matrix/mdev0") = none
      ∧ GetAPVFIODevices (fileFS sampleMatrix []) (str "/sys/devices/vfio_ap/matrix/mdev0")
          ≠ some ([], none) :=
  ⟨rfl, by decide,
   GetAPVFIODevices_of_empty _ _ rfl,
   by rw [GetAPVFIODevices_of_empty _ _ rfl]; exact fun h => Option.noConfusion h⟩

/-- C12. When the read of the matrix file under `sysfsdev` fails with error `e`,
`GetAPVFIODevices` returns a sequence of length zero together with exactly `e`. -/
theorem GetAPVFIODevices_read_failure (fs : FileSystem) (sysfsdev : GoString) (e : GoError)
    (hread : fs.ReadFile (Join [sysfsdev, str "matrix"]) = .error e) :
    GetAPVFIODevices fs sysfsdev = some ([], some e)
      ∧ ∃ devs : List GoString,
          GetAPVFIODevices fs sysfsdev = some (devs, some e) ∧ devs.length = 0 := by
  have h : GetAPVFIODevices fs sysfsdev = some ([], some e) := by
    simp only [GetAPVFIODevices, hread]
  exact ⟨h, [], h, rfl⟩

theorem GetAPVFIODevices_read_failure_witness :
    GetAPVFIODevices emptyFS (str "/sys/devices/vfio_ap/matrix/mdev0") = some ([], some ENOENT) :=
  (GetAPVFIODevices_read_failure emptyFS (str "/sys/devices/vfio_ap/matrix/mdev0") ENOENT rfl).1

/-! ## The normalisation step, continued -/

/-- C13, as the specification words it, fails: a locator without a colon has one segment
before and after the normalisation step, and a locator of four segments keeps four. -/
theorem bdf_three_segments_counterexample :
    (Split (isPCIeDevice_bdf (str "00.0")) (byte ':')).length = 1
      ∧ (Split (getPCIDeviceProperty_bdf (str "00.0")) (byte ':')).length = 1
      ∧ (Split (isPCIeDevice_bdf (str "1:0000:04:00.0")) (byte ':')).length = 4
      ∧ ¬ (∀ bdf : GoString, (Split (isPCIeDevice_bdf bdf) (byte ':')).length = 3)
      ∧ ¬ (∀ bdf : GoString, (Split (getPCIDeviceProperty_bdf bdf) (byte ':')).length = 3) :=
  ⟨by decide, by decide, by decide,
   fun h => absurd (h (str "00.0")) (by decide),
   fun h => absurd (h (str "00.0")) (by decide)⟩

/-- C13, amended.  For every locator that splits on `:` into exactly two or exactly three
segments, the normalised locator (at either site) splits into exactly three segments; a
locator with any other number of segments is left as it is. -/
theorem bdf_three_segments (bdf : GoString) :
    ((Split bdf (byte ':')).length = 2 ∨ (Split bdf (byte ':')).length = 3 →
        (Split (isPCIeDevice_bdf bdf) (byte ':')).length = 3
          ∧ (Split (getPCIDeviceProperty_bdf bdf) (byte ':')).length = 3)
      ∧ ((Split bdf (byte ':')).length ≠ 2 ∧ (Split bdf (byte ':')).length ≠ 3 →
        isPCIeDevice_bdf bdf = bdf ∧ getPCIDeviceProperty_bdf bdf = bdf) := by
  have hseg := isPCIeDevice_bdf_segments bdf
  rw [← isPCIeDevice_bdf_eq]
  constructor
  · intro h
    rcases h with h | h
    · rw [if_pos h] at hseg
      exact ⟨hseg, hseg⟩
    · have h2 : (Split bdf (byte ':')).length ≠ 2 := by omega
      rw [if_neg h2, h] at hseg
      exact ⟨hseg, hseg⟩
  · rintro ⟨h2, -⟩
    have := isPCIeDevice_bdf_of_ne bdf h2
    exact ⟨this, this⟩

theorem bdf_three_segments_witness :
    ((Split (isPCIeDevice_bdf (str "04:00.0")) (byte ':')).length = 3
        ∧ (Split (getPCIDeviceProperty_bdf (str "04:00.0")) (byte ':')).length = 3)
      ∧ ((Split (isPCIeDevice_bdf (str "0000:04:00.0")) (byte ':')).length = 3
        ∧ (Split (getPCIDeviceProperty_bdf (str "0000:04:00.0")) (byte ':')).length = 3)
      ∧ (isPCIeDevice_bdf (str "00.0") = str "00.0"
        ∧ getPCIDeviceProperty_bdf (str "00.0") = str "00.0") :=
  ⟨(bdf_three_segments (str "04:00.0")).1 (Or.inl (by decide)),
   (bdf_three_segments (str "0000:04:00.0")).1 (Or.inr (by decide)),
   (bdf_three_segments (str "00.0")).2 ⟨by decide, by decide⟩⟩

/-- C14. Both operations that accept a locator normalise it to the same value `n` and
build their paths from the PCI devices root and that `n`: `isPCIeDevice` stats the file
`config` and `getPCIDeviceProperty` reads the property file under it.  Hence for a
domain-less locator (two segments) each operation gives, for every property and file
system, the result it gives for the locator with `"0000:"` put in front. -/
theorem bdf_normalised_identically (SysBusPciDevicesPath : GoString) (fs : FileSystem)
    (bdf property : GoString) :
    (∃ n : GoString, n = isPCIeDevice_bdf bdf ∧ n = getPCIDeviceProperty_bdf bdf
        ∧ isPCIeDevice SysBusPciDevicesPath fs bdf
            = (match fs.Stat (Join [SysBusPciDevicesPath, n, str "config"]) with
              | .error _ => false
              | .ok size => decide (size > PCIConfigSpaceSize))
        ∧ getPCIDeviceProperty SysBusPciDevicesPath fs bdf property
            = (match readPCIProperty fs (Join [SysBusPciDevicesPath, n, property]) with
              | none => none
              | some (_, some _) => some []
              | some (rlt, none) => some rlt))
      ∧ ((Split bdf (byte ':')).length = 2 →
          isPCIeDevice SysBusPciDevicesPath fs bdf
              = isPCIeDevice SysBusPciDevicesPath fs (str "0000:" ++ bdf)
            ∧ getPCIDeviceProperty SysBusPciDevicesPath fs bdf property
              = getPCIDeviceProperty SysBusPciDevicesPath fs (str "0000:" ++ bdf) property) := by
  refine ⟨⟨isPCIeDevice_bdf bdf, rfl, isPCIeDevice_bdf_eq bdf, rfl, rfl⟩, ?_⟩
  intro h
  have hdom : str "0000:" ++ bdf = PCIDomain ++ str ":" ++ bdf := by
    have : PCIDomain ++ str ":" = str "0000:" := by decide
    rw [this]
  have hnorm : isPCIeDevice_bdf bdf = str "0000:" ++ bdf := by
    unfold isPCIeDevice_bdf
    rw [if_pos h, hdom]
  have hfix : isPCIeDevice_bdf (str "0000:" ++ bdf) = str "0000:" ++ bdf := by
    rw [← hnorm]
    exact isPCIeDevice_bdf_idem bdf
  have hnorm2 : getPCIDeviceProperty_bdf bdf = str "0000:" ++ bdf := by
    rw [← isPCIeDevice_bdf_eq]
    exact hnorm
  have hfix2 : getPCIDeviceProperty_bdf (str "0000:" ++ bdf) = str "0000:" ++ bdf := by
    rw [← isPCIeDevice_bdf_eq]
    exact hfix
  constructor
  · simp only [isPCIeDevice, hnorm, hfix]
  · simp only [getPCIDeviceProperty, hnorm2, hfix2]

theorem bdf_normalised_identically_witness :
    isPCIeDevice samplePciRoot (sizeFS sampleConfig 4096) (str "04:00.0")
        = isPCIeDevice samplePciRoot (sizeFS sampleConfig 4096) (str "0000:" ++ str "04:00.0")
      ∧ getPCIDeviceProperty samplePciRoot (fileFS sampleVendor (str "8086\n"))
          (str "04:00.0") (str "vendor")
        = getPCIDeviceProperty samplePciRoot (fileFS sampleVendor (str "8086\n"))
          (str "0000:" ++ str "04:00.0") (str "vendor")
      ∧ isPCIeDevice samplePciRoot (sizeFS sampleConfig 4096) (str "04:00.0") = true
      ∧ getPCIDeviceProperty samplePciRoot (fileFS sampleVendor (str "8086\n"))
          (str "04:00.0") (str "vendor") = some (str "8086") :=
  ⟨((bdf_normalised_identically samplePciRoot (sizeFS sampleConfig 4096) (str "04:00.0")
      (str "vendor")).2 (by decide)).1,
   ((bdf_normalised_identically samplePciRoot (fileFS sampleVendor (str "8086\n"))
      (str "04:00.0") (str "vendor")).2 (by decide)).2,
   by decide, by decide⟩

/-- C17. The normalisation step is idempotent at both sites: normalising a normalised
locator changes nothing, and a domain-less locator ends with exactly one `"0000:"` in
front, because putting `"0000:"` before a two-segment string gives a three-segment one. -/
theorem bdf_normalisation_idempotent (bdf : GoString) :
    isPCIeDevice_bdf (isPCIeDevice_bdf bdf) = isPCIeDevice_bdf bdf
      ∧ getPCIDeviceProperty_bdf (getPCIDeviceProperty_bdf bdf) = getPCIDeviceProperty_bdf bdf
      ∧ ((Split bdf (byte ':')).length = 2 →
          (Split (str "0000:" ++ bdf) (byte ':')).length = 3
            ∧ isPCIeDevice_bdf (isPCIeDevice_bdf bdf) = str "0000:" ++ bdf
            ∧ getPCIDeviceProperty_bdf (getPCIDeviceProperty_bdf bdf) = str "0000:" ++ bdf) := by
  have hidem := isPCIeDevice_bdf_idem bdf
  refine ⟨hidem, ?_, ?_⟩
  · rw [← isPCIeDevice_bdf_eq, ← isPCIeDevice_bdf_eq]
    exact hidem
  · intro h
    have hdom : PCIDomain ++ str ":" = str "0000:" := by decide
    have hnorm : isPCIeDevice_bdf bdf = str "0000:" ++ bdf := by
      unfold isPCIeDevice_bdf
      rw [if_pos h, hdom]
    have hlen : (Split (str "0000:" ++ bdf) (byte ':')).length = 3 := by
      rw [← hdom, Split_length_domain, h]
    refine ⟨hlen, ?_, ?_⟩
    · rw [hidem, hnorm]
    · rw [← isPCIeDevice_bdf_eq, ← isPCIeDevice_bdf_eq, hidem, hnorm]

theorem bdf_normalisation_idempotent_witness :
    (Split (str "0000:" ++ str "04:00.0") (byte ':')).length = 3
      ∧ isPCIeDevice_bdf (isPCIeDevice_bdf (str "04:00.0")) = str "0000:" ++ str "04:00.0"
      ∧ getPCIDeviceProperty_bdf (getPCIDeviceProperty_bdf (str "04:00.0"))
          = str "0000:" ++ str "04:00.0" :=
  (bdf_normalisation_idempotent (str "04:00.0")).2.2 (by decide)

/-! ## `GetVFIODeviceType`, continued -/

/-- C15, as the specification words it, fails in its last clause: trailing slashes can
change the result of a five-hyphen name, because symlink resolution receives the path as
given.  With a link at `/d/a-b-c-d-e` into the AP subtree, that path gives the AP type;
the same path with one trailing slash is not the link, its resolution fails, and the
result is the Error type. -/
theorem GetVFIODeviceType_trailing_slash_counterexample :
    str "/d" ++ str "/" ++ str "a-b-c-d-e" ++ List.replicate 0 (byte '/') = str "/d/a-b-c-d-e"
      ∧ str "/d" ++ str "/" ++ str "a-b-c-d-e" ++ List.replicate 1 (byte '/')
          = str "/d/a-b-c-d-e/"
      ∧ Base (str "/d/a-b-c-d-e/") = str "a-b-c-d-e"
      ∧ GetVFIODeviceType sampleAPDir
          (linkFS (str "/d/a-b-c-d-e") (str "/sys/devices/vfio_ap/matrix/a-b-c-d-e"))
          (str "/d/a-b-c-d-e") = (VFIOAPDeviceMediatedType, none)
      ∧ GetVFIODeviceType sampleAPDir
          (linkFS (str "/d/a-b-c-d-e") (str "/sys/devices/vfio_ap/matrix/a-b-c-d-e"))
          (str "/d/a-b-c-d-e/") = (VFIODeviceErrorType, some ENOENT)
      ∧ ¬ (∀ (vfioAPSysfsDir : GoString) (fs : FileSystem) (d n : GoString) (k : Nat),
            n ≠ [] → byte '/' ∉ n →
            GetVFIODeviceType vfioAPSysfsDir fs
                (d ++ str "/" ++ n ++ List.replicate k (byte '/'))
              = GetVFIODeviceType vfioAPSysfsDir fs (d ++ str "/" ++ n)) :=
  ⟨by decide, by decide, by decide, by decide, by decide,
   fun h => absurd
     (h sampleAPDir (linkFS (str "/d/a-b-c-d-e") (str "/sys/devices/vfio_ap/matrix/a-b-c-d-e"))
       (str "/d") (str "a-b-c-d-e") 1 (by decide) (by decide))
     (by decide)⟩

/-- C15, amended.  `GetVFIODeviceType` decides on the final path component alone.  For
every directory prefix `d`, every non-empty name `n` without a slash and every number `k`
of trailing slashes, the component examined on `d/n` followed by `k` slashes is `n`; the
result type is `VFIOPCIDeviceNormalType` exactly when `n` has three colon tokens; the
call is the shape error (in every file system) exactly when `n` has neither three colon
tokens nor five hyphen tokens; and the trailing slashes leave the whole result as it is
on `d/n` when `n` has three colon tokens or does not have five hyphen tokens, or when
symlink resolution answers alike for the two spellings. -/
theorem GetVFIODeviceType_final_component (vfioAPSysfsDir : GoString) (fs : FileSystem)
    (d n : GoString) (k : Nat) (hne : n ≠ []) (hslash : byte '/' ∉ n) :
    Base (d ++ str "/" ++ n ++ List.replicate k (byte '/')) = n
      ∧ ((GetVFIODeviceType vfioAPSysfsDir fs
            (d ++ str "/" ++ n ++ List.replicate k (byte '/'))).1 = VFIOPCIDeviceNormalType ↔
          (Split n (byte ':')).length = 3)
      ∧ ((∀ fs2 : FileSystem, GetVFIODeviceType vfioAPSysfsDir fs2
            (d ++ str "/" ++ n ++ List.replicate k (byte '/'))
            = (VFIODeviceErrorType,
                some ⟨str "Incorrect tokens found while parsing VFIO details: " ++ n⟩)) ↔
          ((Split n (byte ':')).length ≠ 3 ∧ (Split n (byte '-')).length ≠ 5))
      ∧ ((Split n (byte ':')).length = 3 ∨ (Split n (byte '-')).length ≠ 5 →
          GetVFIODeviceType vfioAPSysfsDir fs (d ++ str "/" ++ n ++ List.replicate k (byte '/'))
            = GetVFIODeviceType vfioAPSysfsDir fs (d ++ str "/" ++ n))
      ∧ (fs.EvalSymlinks (d ++ str "/" ++ n ++ List.replicate k (byte '/'))
            = fs.EvalSymlinks (d ++ str "/" ++ n) →
          GetVFIODeviceType vfioAPSysfsDir fs (d ++ str "/" ++ n ++ List.replicate k (byte '/'))
            = GetVFIODeviceType vfioAPSysfsDir fs (d ++ str "/" ++ n)) := by
  have hbase := Base_dir_name d n k hne hslash
  have hbase0 : Base (d ++ str "/" ++ n) = n := by
    have h := Base_dir_name d n 0 hne hslash
    simpa using h
  refine ⟨hbase, ?_, ?_, ?_, ?_⟩
  · rw [GetVFIODeviceType_fst_normal_iff, hbase]
  · have h := GetVFIODeviceType_shape_error_iff vfioAPSysfsDir
      (d ++ str "/" ++ n ++ List.replicate k (byte '/'))
    rw [hbase] at h
    exact h
  · intro h
    rw [GetVFIODeviceType_unfold, GetVFIODeviceType_unfold, hbase, hbase0]
    rcases h with h | h
    · simp [h]
    · by_cases hcolon : (Split n (byte ':')).length = 3
      · simp [hcolon]
      · simp [hcolon, h]
  · intro h
    rw [GetVFIODeviceType_unfold, GetVFIODeviceType_unfold, hbase, hbase0, h]

theorem GetVFIODeviceType_final_component_witness :
    Base (str "/sys/bus/pci/devices/a:b-c" ++ str "/" ++ str "0000:04:00.0"
        ++ List.replicate 2 (byte '/')) = str "0000:04:00.0"
      ∧ GetVFIODeviceType sampleAPDir emptyFS
          (str "/sys/bus/pci/devices/a:b-c" ++ str "/" ++ str "0000:04:00.0"
            ++ List.replicate 2 (byte '/'))
        = GetVFIODeviceType sampleAPDir emptyFS
          (str "/sys/bus/pci/devices/a:b-c" ++ str "/" ++ str "0000:04:00.0")
      ∧ GetVFIODeviceType sampleAPDir emptyFS
          (str "/sys/bus/pci/devices/a:b-c" ++ str "/" ++ str "0000:04:00.0")
        = (VFIOPCIDeviceNormalType, none)
      ∧ str "/sys/bus/pci/devices/a:b-c" ++ str "/" ++ str "0000:04:00.0"
          ++ List.replicate 2 (byte '/') = str "/sys/bus/pci/devices/a:b-c/0000:04:00.0//" :=
  ⟨(GetVFIODeviceType_final_component sampleAPDir emptyFS (str "/sys/bus/pci/devices/a:b-c")
      (str "0000:04:00.0") 2 (by decide) (by decide)).1,
   (GetVFIODeviceType_final_component sampleAPDir emptyFS (str "/sys/bus/pci/devices/a:b-c")
      (str "0000:04:00.0") 2 (by decide) (by decide)).2.2.2.1 (Or.inl (by decide)),
   by decide, by decide⟩

/-- C18. The classifier looks at token counts only.  Every final component holding
exactly two `:` bytes gives `VFIOPCIDeviceNormalType` with a nil error, whatever else it
holds.  Every final component holding a number of `:` bytes other than two and exactly
four `-` bytes goes on to symlink resolution: when that succeeds the result is a
mediated type with a nil error (the AP one exactly when the AP root is a prefix of the
target), and when it fails the result is the resolution error. -/
theorem GetVFIODeviceType_counts_only (vfioAPSysfsDir : GoString) (fs : FileSystem)
    (deviceFilePath : GoString) :
    ((Base deviceFilePath).count (byte ':') = 2 →
        GetVFIODeviceType vfioAPSysfsDir fs deviceFilePath = (VFIOPCIDeviceNormalType, none))
      ∧ ((Base deviceFilePath).count (byte ':') ≠ 2 →
          (Base deviceFilePath).count (byte '-') = 4 →
          (∀ t : GoString, fs.EvalSymlinks deviceFilePath = .ok t →
              (vfioAPSysfsDir <+: t ∧
                  GetVFIODeviceType vfioAPSysfsDir fs deviceFilePath
                    = (VFIOAPDeviceMediatedType, none))
                ∨ (¬ vfioAPSysfsDir <+: t ∧
                  GetVFIODeviceType vfioAPSysfsDir fs deviceFilePath
                    = (VFIOPCIDeviceMediatedType, none)))
            ∧ (∀ e : GoError, fs.EvalSymlinks deviceFilePath = .error e →
              GetVFIODeviceType vfioAPSysfsDir fs deviceFilePath
                = (VFIODeviceErrorType, some e))) := by
  rw [GetVFIODeviceType_unfold, Split_length, Split_length]
  constructor
  · intro h
    simp [h]
  · intro hcolon hhyphen
    have hc : ¬ (List.count (byte ':') (Base deviceFilePath) + 1 = 3) := by omega
    constructor
    · intro t ht
      by_cases hp : HasPrefix t vfioAPSysfsDir = true
      · left
        refine ⟨(HasPrefix_iff t vfioAPSysfsDir).1 hp, ?_⟩
        simp [hc, hhyphen, ht, hp]
      · right
        refine ⟨fun h => hp ((HasPrefix_iff t vfioAPSysfsDir).2 h), ?_⟩
        simp [hc, hhyphen, ht, hp]
    · intro e he
      simp [hc, hhyphen, he]

theorem GetVFIODeviceType_counts_only_witness :
    GetVFIODeviceType sampleAPDir emptyFS (str "::") = (VFIOPCIDeviceNormalType, none)
      ∧ GetVFIODeviceType sampleAPDir emptyFS (str "a-b-c-d-e:x:y")
          = (VFIOPCIDeviceNormalType, none)
      ∧ ((sampleAPDir <+: str "/sys/devices/vfio_ap/matrix" ∧
            GetVFIODeviceType sampleAPDir (linkFS (str "----") (str "/sys/devices/vfio_ap/matrix"))
              (str "----") = (VFIOAPDeviceMediatedType, none))
          ∨ (¬ sampleAPDir <+: str "/sys/devices/vfio_ap/matrix" ∧
            GetVFIODeviceType sampleAPDir (linkFS (str "----") (str "/sys/devices/vfio_ap/matrix"))
              (str "----") = (VFIOPCIDeviceMediatedType, none)))
      ∧ GetVFIODeviceType sampleAPDir emptyFS (str "----") = (VFIODeviceErrorType, some ENOENT) :=
  ⟨(GetVFIODeviceType_counts_only sampleAPDir emptyFS (str "::")).1 (by decide),
   (GetVFIODeviceType_counts_only sampleAPDir emptyFS (str "a-b-c-d-e:x:y")).1 (by decide),
   ((GetVFIODeviceType_counts_only sampleAPDir
      (linkFS (str "----") (str "/sys/devices/vfio_ap/matrix")) (str "----")).2
      (by decide) (by decide)).1 _ rfl,
   ((GetVFIODeviceType_counts_only sampleAPDir emptyFS (str "----")).2
      (by decide) (by decide)).2 ENOENT rfl⟩

/-! ## `GetAPVFIODevices`, continued -/

/-- C16. `GetAPVFIODevices` drops the last byte of the matrix file whatever that byte is.
For every non-empty content `c` that is read, the call returns, with a nil error, a
non-empty list none of whose elements holds a newline and whose elements joined by
newlines are `c` without its last byte. -/
theorem GetAPVFIODevices_drops_last_byte (fs : FileSystem) (sysfsdev c : GoString)
    (hne : c ≠ [])
    (hread : fs.ReadFile (Join [sysfsdev, str "matrix"]) = .ok c) :
    ∃ devs : List GoString,
      GetAPVFIODevices fs sysfsdev = some (devs, none)
        ∧ devs ≠ []
        ∧ (∀ t ∈ devs, byte '\n' ∉ t)
        ∧ stringsJoin devs [byte '\n'] = c.dropLast := by
  refine ⟨Split c.dropLast (byte '\n'), ?_, ?_, ?_, ?_⟩
  · simp only [GetAPVFIODevices, hread]
    rw [sliceTo_length_sub_one _ hne]
  · exact splitLoop_ne_nil _ _ _
  · exact splitLoop_not_mem _ _ [] (by simp)
  · have h := intercalate_splitLoop (byte '\n') c.dropLast []
    simpa [stringsJoin, Split] using h

theorem GetAPVFIODevices_drops_last_byte_witness :
    (∃ devs : List GoString,
        GetAPVFIODevices (fileFS sampleMatrix (str "05.0010"))
            (str "/sys/devices/vfio_ap/matrix/mdev0") = some (devs, none)
          ∧ devs ≠ []
          ∧ (∀ t ∈ devs, byte '\n' ∉ t)
          ∧ stringsJoin devs [byte '\n'] = (str "05.0010").dropLast)
      ∧ GetAPVFIODevices (fileFS sampleMatrix (str "05.0010"))
          (str "/sys/devices/vfio_ap/matrix/mdev0") = some ([str "05.001"], none)
      ∧ GetAPVFIODevices (fileFS sampleMatrix (str "\n"))
          (str "/sys/devices/vfio_ap/matrix/mdev0") = some ([str ""], none) :=
  ⟨GetAPVFIODevices_drops_last_byte (fileFS sampleMatrix (str "05.0010"))
      (str "/sys/devices/vfio_ap/matrix/mdev0") (str "05.0010") (by decide) rfl,
   by decide, by decide⟩

end Drivers
